import Mathlib

/-!
Verification development for the file-based room lock coordinator
(`agents/room_session_manager.py`, class `RoomSessionManager`).

The Python component is embedded shallowly:

* The bytes stored in a lock file are modelled by `LockFileData`: a file is
  either zero-length, non-empty but whitespace-only, not valid JSON, or a
  parsed JSON object.  Of a parsed object the readers in the source only ever
  touch the keys `expires_at` and `pid`, so a parsed object is modelled by
  `LockInfo`, which records whether each of those keys is present and, for
  `expires_at`, whether its string parses as a timestamp
  (`datetime.fromisoformat` succeeding or raising `ValueError`).
* Timestamps are natural numbers (seconds since the epoch); the default
  string `1970-01-01` used by `lock_info.get` parses to time `0`.
* Process liveness probes (`os.kill(pid, 0)`) are modelled by `KillProbe`,
  the four outcomes the source distinguishes via its `except` clause.
* The lock *dynamics* (`acquire_room_lock` / `release_room_lock`) are
  modelled further below by explicit state passing over a filesystem state
  with inode-accurate advisory-lock (`fcntl.flock`) semantics: `open(p, "w")`
  truncates the file at the path, advisory locks attach to the inode behind
  an open handle, and `unlink` removes only the path binding, leaving an
  already-open inode (and any advisory lock on it) alive.
-/

namespace RoomLock

/-- Association-list lookup keyed by strings (models a Python dict lookup). -/
def lookupA {α : Type} (k : String) : List (String × α) → Option α
  | [] => none
  | (k', v) :: rest => if k' = k then some v else lookupA k rest

/-- Association-list removal keyed by strings (models `del d[k]` guarded by
`if k in d`). -/
def eraseA {α : Type} (k : String) : List (String × α) → List (String × α)
  | [] => []
  | (k', v) :: rest => if k' = k then eraseA k rest else (k', v) :: eraseA k rest

/-- Association-list update/insert keyed by strings (models `d[k] = v`). -/
def setA {α : Type} (k : String) (v : α) : List (String × α) → List (String × α)
  | [] => [(k, v)]
  | (k', v') :: rest => if k' = k then (k, v) :: rest else (k', v') :: setA k v rest

/-- Association-list lookup keyed by naturals (inode tables). -/
def lookupN {α : Type} (k : Nat) : List (Nat × α) → Option α
  | [] => none
  | (k', v) :: rest => if k' = k then some v else lookupN k rest

/-- Association-list update/insert keyed by naturals. -/
def setN {α : Type} (k : Nat) (v : α) : List (Nat × α) → List (Nat × α)
  | [] => [(k, v)]
  | (k', v') :: rest => if k' = k then (k, v) :: rest else (k', v') :: setN k v rest

/-- Remove the pair `(k, v)` when present (used for releasing an advisory
lock held by process `v` on inode `k`). -/
def eraseNV (k : Nat) (v : Nat) : List (Nat × Nat) → List (Nat × Nat)
  | [] => []
  | (k', v') :: rest =>
    if k' = k ∧ v' = v then eraseNV k v rest else (k', v') :: eraseNV k v rest

/-! ## The probe for process liveness (`_is_process_alive`) -/

/-- Outcome of the null-signal probe `os.kill(pid, 0)`:
it succeeds, raises `PermissionError` (process exists, owned by another
user), raises `ProcessLookupError` (no such process), or raises `TypeError`
(`pid` is not an integer, e.g. `None`). -/
inductive KillProbe : Type
  | success
  | permissionDenied
  | noSuchProcess
  | badPidType
  deriving DecidableEq

/-- Embeds `RoomSessionManager._is_process_alive` (lines 341-350): it returns
`True` when `os.kill(pid, 0)` succeeds, and its clause
`except (OSError, ProcessLookupError, TypeError): return False` catches every
failure.  `PermissionError` is a subclass of `OSError`, so a permission-denied
probe also returns `False`. -/
def is_process_alive : KillProbe → Bool
  | .success => true
  | .permissionDenied => false
  | .noSuchProcess => false
  | .badPidType => false

/-! ## Lock-file contents as seen by the readers -/

/-- Result of `datetime.fromisoformat` on the stored `expires_at` string:
either a timestamp or a `ValueError`. -/
inductive IsoStamp : Type
  | valid (t : Nat)
  | invalid
  deriving DecidableEq

/-- The parts of a parsed lock-file JSON object that the readers touch:
`expires_at` (absent, or a string that parses / fails to parse) and `pid`
(absent or an integer). -/
structure LockInfo : Type where
  expiresF : Option IsoStamp
  pidF : Option Int
  deriving DecidableEq

/-- The on-disk bytes of one lock file, as the readers classify them:
zero-length (`st_size == 0`), non-empty but stripping to the empty string,
not valid JSON (`json.loads` raises), or a parsed object. -/
inductive LockFileData : Type
  | emptyFile
  | blankContent
  | malformed
  | parsed (info : LockInfo)
  deriving DecidableEq

/-- The value `lock_info.get('expires_at', '1970-01-01')` run through
`datetime.fromisoformat`: a missing key falls back to the epoch default,
which always parses, to time `0`. -/
def expiresVal (info : LockInfo) : IsoStamp :=
  match info.expiresF with
  | none => .valid 0
  | some v => v

/-- Python truthiness of `lock_info.get('pid')` as used in
`if pid and not self._is_process_alive(pid)`: `None` and `0` are falsy. -/
def pidTruthy (info : LockInfo) : Bool :=
  match info.pidF with
  | none => false
  | some n => n != 0

/-- The `pid` value handed to the liveness check when `pidTruthy`. -/
def pidVal (info : LockInfo) : Int :=
  match info.pidF with
  | none => 0
  | some n => n

/-! ## Per-file classification inside `cleanup_expired_locks` -/

/-- What the sweep decides for one file: keep it, or remove it counting it as
expired (`cleaned_count`), as orphaned (also `cleaned_count`), or as
corrupted (`corrupted_count`). -/
inductive SweepAction : Type
  | keep
  | removeExpired
  | removeOrphan
  | removeCorrupt
  deriving DecidableEq

/-- Embeds the per-file body of `RoomSessionManager.cleanup_expired_locks`
(lines 277-322): empty file / empty content / `json.JSONDecodeError` /
`ValueError` from `fromisoformat` are the corrupted cases; otherwise the
file is removed as expired when `datetime.now() > expires_at` (strict), else
removed as orphaned when `pid` is truthy and the process is dead, else kept. -/
def classifyFile (d : LockFileData) (now : Nat) (alive : Int → Bool) : SweepAction :=
  match d with
  | .emptyFile => .removeCorrupt
  | .blankContent => .removeCorrupt
  | .malformed => .removeCorrupt
  | .parsed info =>
    match expiresVal info with
    | .invalid => .removeCorrupt
    | .valid e =>
      if e < now then .removeExpired
      else if pidTruthy info && !(alive (pidVal info)) then .removeOrphan
      else .keep

/-- Embeds the loop of `RoomSessionManager.cleanup_expired_locks`
(lines 265-339) over the lock directory, modelled as a list of
`(file name, contents)` pairs.  Returns the files left on disk together with
the `cleaned_count` and `corrupted_count` tallies the source computes (the
Python function only logs these two counters and returns `None`). -/
def cleanup_expired_locks (files : List (String × LockFileData)) (now : Nat)
    (alive : Int → Bool) : List (String × LockFileData) × Nat × Nat :=
  match files with
  | [] => ([], 0, 0)
  | (name, d) :: rest =>
    let r := cleanup_expired_locks rest now alive
    match classifyFile d now alive with
    | .keep => ((name, d) :: r.1, r.2.1, r.2.2)
    | .removeExpired => (r.1, r.2.1 + 1, r.2.2)
    | .removeOrphan => (r.1, r.2.1 + 1, r.2.2)
    | .removeCorrupt => (r.1, r.2.1, r.2.2 + 1)

/-- Embeds `RoomSessionManager.is_room_locked` (lines 193-259) on the contents
of one room's lock file (`none` when the file does not exist).  Returns the
boolean answer together with the file contents left behind (`none` when the
method deleted the file as part of its self-healing). -/
def is_room_locked (file : Option LockFileData) (now : Nat) (alive : Int → Bool) :
    Bool × Option LockFileData :=
  match file with
  | none => (false, none)
  | some .emptyFile => (false, none)
  | some .blankContent => (false, none)
  | some .malformed => (false, none)
  | some (.parsed info) =>
    match expiresVal info with
    | .invalid => (false, none)
    | .valid e =>
      if e < now then (false, none)
      else if pidTruthy info && !(alive (pidVal info)) then (false, none)
      else (true, some (.parsed info))

/-- Modelled from the spec: `classify(record, now, isProcessAlive)` from
section 4.1, together with the decode contract `DecodeError::MissingField`
when required fields are absent and the rule that callers treat any decode
failure as `Corrupt`.  No such classifier exists as one function in the
source; this definition follows the specification text, restricted to the
two record fields the source readers consult. -/
inductive SpecStatus : Type
  | statusEmpty
  | statusCorrupt
  | statusExpired
  | statusOrphaned
  | statusValid
  deriving DecidableEq

/-- Modelled from the spec: the classification of one lock file per section
4.1 — `Empty` for a zero-length file, `Corrupt` for any decode failure
(malformed bytes, a missing required field such as `expires_at` or
`owner_pid`, or an unparseable timestamp), `Expired` when `now >= expires_at`,
`OrphanedProcess` when the owner process is dead, otherwise `Valid`. -/
def classify_spec (d : LockFileData) (now : Nat) (alive : Int → Bool) : SpecStatus :=
  match d with
  | .emptyFile => .statusEmpty
  | .blankContent => .statusCorrupt
  | .malformed => .statusCorrupt
  | .parsed info =>
    match info.expiresF, info.pidF with
    | some (.valid e), some p =>
      if e ≤ now then .statusExpired
      else if !(alive p) then .statusOrphaned
      else .statusValid
    | _, _ => .statusCorrupt

/-! ## The lock-record codec -/

/-- A JSON scalar as stored in the lock record: a string, a number, or the
ISO-8601 rendering of a timestamp (`iso t` stands for the string
`datetime.fromtimestamp(t).isoformat()`, which `fromisoformat` parses back
to `t`). -/
inductive JVal : Type
  | str (s : String)
  | num (n : Nat)
  | iso (t : Nat)
  deriving DecidableEq

/-- The in-memory session record `session_info` built by
`acquire_room_lock` (lines 76-83). -/
structure SessionInfo : Type where
  room_name : String
  job_id : String
  user_id : String
  pid : Nat
  acquired_at : Nat
  expires_at : Nat
  deriving DecidableEq

/-- Embeds the construction of the `session_info` dict serialized by
`json.dumps` in `acquire_room_lock` (lines 76-94): the six fields, with the
timestamps rendered in ISO format. -/
def encode (r : SessionInfo) : List (String × JVal) :=
  [("room_name", .str r.room_name),
   ("job_id", .str r.job_id),
   ("user_id", .str r.user_id),
   ("pid", .num r.pid),
   ("acquired_at", .iso r.acquired_at),
   ("expires_at", .iso r.expires_at)]

/-- Modelled from the spec: `decode(bytes) -> Result<Record, DecodeError>`
from section 4.1.  The source never reconstructs a full record (its readers
only extract `expires_at` and `pid` with defaults), so the full decoder is
taken from the specification: every field written by `encode` is required,
and a missing or ill-typed field is a decode failure (`none`, standing for
`DecodeError::MissingField` / `Malformed`). -/
def decode (j : List (String × JVal)) : Option SessionInfo :=
  match lookupA "room_name" j, lookupA "job_id" j, lookupA "user_id" j,
        lookupA "pid" j, lookupA "acquired_at" j, lookupA "expires_at" j with
  | some (.str rn), some (.str jb), some (.str us),
    some (.num p), some (.iso a), some (.iso e) =>
    some ⟨rn, jb, us, p, a, e⟩
  | _, _, _, _, _, _ => none

/-! ## Lock dynamics: filesystem state, advisory locks, acquire / release

One contended resource (one lock-file path) is modelled.  `open(path, "w")`
truncates the file at the path (creating it when absent), `fcntl.flock`
attaches to the inode behind the open handle, and `unlink` removes only the
path binding: an inode that is still open — and any advisory lock held on
it — survives the unlink, exactly as on a POSIX filesystem. -/

/-- Contents of one inode in the dynamics model: a freshly truncated file is
empty; a successful acquisition rewrites it with a session record. -/
inductive FContent : Type
  | empty
  | record (r : SessionInfo)
  deriving DecidableEq

/-- Shared filesystem state: the next fresh inode number, the inode currently
bound to the lock-file path (if the file exists), the advisory-lock table
(inode, holding pid), and the contents of each inode. -/
structure Sys : Type where
  nextInode : Nat
  pathInode : Option Nat
  locked : List (Nat × Nat)
  content : List (Nat × FContent)
  deriving DecidableEq

/-- Per-process manager state: `_local_sessions` and `_lock_handles`
(a handle is modelled by the inode it refers to). -/
structure LocalMgr : Type where
  sessions : List (String × SessionInfo)
  handles : List (String × Nat)
  deriving DecidableEq

/-- The key `f"{user_id}:{room_name}"` used for both per-process dicts. -/
def sessionKey (user room : String) : String := user ++ ":" ++ room

/-- Embeds `open(lock_file_path, "w")`: when the path is bound the existing
inode is truncated to empty; otherwise a fresh inode is created, bound to the
path, and starts empty.  Returns the inode behind the new handle. -/
def fsOpenW (s : Sys) : Nat × Sys :=
  match s.pathInode with
  | some i => (i, { s with content := setN i .empty s.content })
  | none =>
    (s.nextInode,
     { s with nextInode := s.nextInode + 1,
              pathInode := some s.nextInode,
              content := setN s.nextInode .empty s.content })

/-- Embeds `fcntl.flock(fd, LOCK_EX | LOCK_NB)` by process `p` on inode `i`:
succeeds when no other process holds the inode (re-locking one's own lock is
a no-op success); raises `BlockingIOError` (`false`) otherwise. -/
def flockTry (p i : Nat) (s : Sys) : Bool × Sys :=
  match lookupN i s.locked with
  | some q => if q = p then (true, s) else (false, s)
  | none => (true, { s with locked := setN i p s.locked })

/-- Embeds `fcntl.flock(fd, LOCK_UN)` by process `p` on inode `i`. -/
def flockUn (p i : Nat) (s : Sys) : Sys :=
  { s with locked := eraseNV i p s.locked }

/-- Embeds `fd.close()`: closing the handle drops any advisory lock the
process still holds through it. -/
def fsClose (p i : Nat) (s : Sys) : Sys :=
  flockUn p i s

/-- Embeds `lock_file_path.unlink()`: removes the path binding only. -/
def fsUnlink (s : Sys) : Sys :=
  { s with pathInode := none }

/-- Whether `lock_file_path.stat().st_size == 0` for the inode currently
bound to the path. -/
def pathIsEmptyFile (s : Sys) : Bool :=
  match s.pathInode with
  | some i =>
    match lookupN i s.content with
    | some .empty => true
    | some (.record _) => false
    | none => true
  | none => false

/-- Embeds `RoomSessionManager.release_room_lock` (lines 158-191) run by
process `p`: if the per-process handle table has an entry, unlock, close and
drop it; drop the local session entry; then — unconditionally — delete the
lock file if it exists. -/
def release_room_lock (p : Nat) (room user : String) (L : LocalMgr) (s : Sys) :
    LocalMgr × Sys :=
  let key := sessionKey user room
  let step1 : LocalMgr × Sys :=
    match lookupA key L.handles with
    | some i => ({ L with handles := eraseA key L.handles }, fsClose p i (flockUn p i s))
    | none => (L, s)
  let L2 : LocalMgr := { step1.1 with sessions := eraseA key step1.1.sessions }
  let s3 : Sys :=
    match step1.2.pathInode with
    | some _ => fsUnlink step1.2
    | none => step1.2
  (L2, s3)

/-- Result of one `acquire_room_lock` call: the boolean return value, the
number of exclusive advisory-lock attempts (`LOCK_EX | LOCK_NB` calls) made,
and the resulting per-process and shared states. -/
structure AcqRes : Type where
  ok : Bool
  exAttempts : Nat
  L : LocalMgr
  s : Sys
  deriving DecidableEq

/-- Embeds the polling loop of `acquire_room_lock` (lines 69-152) for process
`p` on the open handle to inode `i`.  `fuel` is the number of loop iterations
the wall-clock budget admits (one per 100 ms sleep).  On fuel exhaustion the
timeout path runs: close the handle, then — best-effort cleanup — delete the
lock file when it exists and is empty (a non-empty file is only read for a
diagnostic log line). -/
def pollLoop (p i : Nat) (key : String) (r : SessionInfo) :
    Nat → LocalMgr → Sys → AcqRes
  | 0, L, s =>
    let s1 := fsClose p i s
    match s1.pathInode with
    | none => ⟨false, 0, L, s1⟩
    | some _ =>
      if pathIsEmptyFile s1 then ⟨false, 0, L, fsUnlink s1⟩
      else ⟨false, 0, L, s1⟩
  | fuel + 1, L, s =>
    match flockTry p i s with
    | (true, s1) =>
      let s2 : Sys := { s1 with content := setN i (.record r) s1.content }
      ⟨true, 1,
       { sessions := setA key r L.sessions, handles := setA key i L.handles }, s2⟩
    | (false, s1) =>
      let res := pollLoop p i key r fuel L s1
      { res with exAttempts := res.exAttempts + 1 }

/-- Embeds `RoomSessionManager.acquire_room_lock` (lines 45-156) run by
process `p` at wall-clock time `now` (seconds): self-heal a pre-existing
local session by releasing it, open the lock file with mode `"w"`
(truncating it), then poll.  The loop `while time.time() - start_time <
timeout` with a 100 ms sleep per failed attempt admits `(10 * timeout).toNat`
iterations; the record written on success has `acquired_at = now` and
`expires_at = now + 3600` (one hour). -/
def acquire_room_lock (p : Nat) (room jobId user : String) (timeout : Int)
    (now : Nat) (L : LocalMgr) (s : Sys) : AcqRes :=
  let key := sessionKey user room
  let step1 : LocalMgr × Sys :=
    match lookupA key L.sessions with
    | some _ => release_room_lock p room user L s
    | none => (L, s)
  let opened := fsOpenW step1.2
  let r : SessionInfo := ⟨room, jobId, user, p, now, now + 3600⟩
  pollLoop p opened.1 key r (10 * timeout).toNat step1.1 opened.2

/-- The empty per-process manager state (a fresh `RoomSessionManager`). -/
def L0 : LocalMgr := ⟨[], []⟩

/-- The initial shared state: no lock file, no advisory locks. -/
def s0 : Sys := ⟨0, none, [], []⟩

/-! ## Helper lemmas -/

theorem eraseA_of_lookupA_none {α : Type} (k : String) (l : List (String × α))
    (h : lookupA k l = none) : eraseA k l = l := by
  induction l with
  | nil => rfl
  | cons kv rest ih =>
    obtain ⟨k', v⟩ := kv
    by_cases hk : k' = k
    · simp [lookupA, hk] at h
    · simp only [lookupA, hk, if_false] at h
      simp [eraseA, hk, ih h]

theorem lookupN_setN_self {α : Type} (k : Nat) (v : α) (l : List (Nat × α)) :
    lookupN k (setN k v l) = some v := by
  induction l with
  | nil => simp [setN, lookupN]
  | cons kv rest ih =>
    obtain ⟨k', v'⟩ := kv
    by_cases hk : k' = k
    · simp [setN, lookupN, hk]
    · simp [setN, lookupN, hk, ih]

theorem fsOpenW_pathInode (s : Sys) :
    (fsOpenW s).2.pathInode = some (fsOpenW s).1 := by
  cases h : s.pathInode <;> simp [fsOpenW, h]

theorem fsOpenW_content (s : Sys) :
    lookupN (fsOpenW s).1 (fsOpenW s).2.content = some FContent.empty := by
  cases h : s.pathInode <;> simp [fsOpenW, h, lookupN_setN_self]

theorem pollLoop_zero_spec (p i : Nat) (key : String) (r : SessionInfo)
    (L : LocalMgr) (s : Sys) (h1 : s.pathInode = some i)
    (h2 : lookupN i s.content = some FContent.empty) :
    (pollLoop p i key r 0 L s).ok = false ∧
    (pollLoop p i key r 0 L s).exAttempts = 0 := by
  have hp : (fsClose p i s).pathInode = some i := h1
  have hc : lookupN i (fsClose p i s).content = some FContent.empty := h2
  simp [pollLoop, hp, pathIsEmptyFile, hc]

/-! ## Concrete traces used by the contention claims -/

/-- Process 1 acquires `room-1` at time 0 with a 2 s budget, from a fresh
state, and wins. -/
def traceA : AcqRes := acquire_room_lock 1 "room-1" "jobA" "userA" 2 0 L0 s0

/-- Process 2 then tries to acquire `room-1` (2 s budget) while process 1
holds it, and times out. -/
def traceB : AcqRes := acquire_room_lock 2 "room-1" "jobB" "userB" 2 5 L0 traceA.s

/-- Process 3 then tries to acquire `room-1` (2 s budget), still with no
release by process 1. -/
def traceC : AcqRes := acquire_room_lock 3 "room-1" "jobC" "userC" 2 9 L0 traceB.s

/-- C1: mutual exclusion fails on the code.  Process 1 acquires the room and
never releases; process 2 times out, but its `open(path, "w")` truncated the
holder's lock file and its timeout path deleted the now-empty file; process 3
then creates a fresh file at the path, takes the advisory lock on the fresh
inode, and also returns `true`.  Two of the three acquire calls issued before
any release return `true` (process 1 still holds its advisory lock on the old
inode, and the holder's `expires_at` of 3600 is far in the future at time 9),
contradicting "at most one of those calls returns true". -/
theorem acquire_mutual_exclusion_violated :
    traceA.ok = true ∧ traceB.ok = false ∧ traceC.ok = true ∧
    lookupN 0 traceC.s.locked = some 1 ∧ lookupN 1 traceC.s.locked = some 3 := by
  decide

/-- C2: a losing `acquire` does not leave the on-disk state unchanged.
Before process 2's call the lock file is inode 0 holding process 1's record;
process 2's call opens the file with mode `"w"` (truncating it to empty) and,
after exhausting its timeout, deletes the empty file.  After the losing call
the path is unlinked and inode 0 is empty. -/
theorem losing_acquire_mutates_disk :
    traceB.ok = false ∧
    traceA.s.pathInode = some 0 ∧
    lookupN 0 traceA.s.content
      = some (.record ⟨"room-1", "jobA", "userA", 1, 0, 3600⟩) ∧
    traceB.s.pathInode = none ∧
    lookupN 0 traceB.s.content = some FContent.empty := by
  decide

/-! ## Release idempotence (C3) -/

/-- A lock record owned by some other process (pid 99). -/
def rOther : SessionInfo := ⟨"room-1", "jobX", "userX", 99, 0, 3600⟩

/-- A state in which process 99 holds the lock: the path is bound to inode 0,
process 99 holds the advisory lock, and the file holds its record. -/
def sHeld : Sys := ⟨1, some 0, [(0, 99)], [(0, .record rOther)]⟩

/-- C3 counterexample: `release_room_lock` called by process 2 for a
`(resource, user)` pair with no entry in its local registry still deletes the
on-disk lock file of the resource (held here by process 99), so the call is
not a no-op on the lock file. -/
theorem release_without_entry_deletes_file :
    sHeld.pathInode = some 0 ∧
    (release_room_lock 2 "room-1" "userB" L0 sHeld).2.pathInode = none := by
  decide

/-- C3 amended: with no entry in the local registry, `release_room_lock`
leaves the registry, the advisory-lock table, and all file contents
unchanged, and releases no advisory lock — but it still unconditionally
unlinks the resource's lock file when it exists. -/
theorem release_no_entry_keeps_registry_unlinks_file (p : Nat)
    (room user : String) (L : LocalMgr) (s : Sys)
    (h1 : lookupA (sessionKey user room) L.handles = none)
    (h2 : lookupA (sessionKey user room) L.sessions = none) :
    (release_room_lock p room user L s).1 = L ∧
    (release_room_lock p room user L s).2 = { s with pathInode := none } := by
  constructor
  · simp only [release_room_lock, h1]
    simp [eraseA_of_lookupA_none _ _ h2]
  · simp only [release_room_lock, h1]
    cases hp : s.pathInode
    · cases s
      simp_all
    · simp [hp, fsUnlink]

/-- C3 amended, witness: the general statement applied to the concrete state
of the counterexample. -/
theorem release_no_entry_keeps_registry_unlinks_file_witness :
    lookupA (sessionKey "userB" "room-1") L0.handles = none ∧
    lookupA (sessionKey "userB" "room-1") L0.sessions = none ∧
    ((release_room_lock 2 "room-1" "userB" L0 sHeld).1 = L0 ∧
     (release_room_lock 2 "room-1" "userB" L0 sHeld).2
       = { sHeld with pathInode := none }) :=
  ⟨by decide, by decide,
   release_no_entry_keeps_registry_unlinks_file 2 "room-1" "userB" L0 sHeld
     (by decide) (by decide)⟩

/-! ## Liveness probe (C4) -/

/-- C4: the source's `_is_process_alive` does not treat "permission denied"
as alive.  Its `except (OSError, ProcessLookupError, TypeError)` clause
catches `PermissionError` (a subclass of `OSError`), so a probe that fails
with permission-denied — a process that exists but is owned by another
user — is reported dead (`false`), the same as a genuinely missing process. -/
theorem probe_permission_denied_reported_dead :
    is_process_alive .permissionDenied = false ∧
    is_process_alive .noSuchProcess = false ∧
    is_process_alive .success = true := by
  decide

/-! ## Missing required fields (C5) -/

/-- C5 counterexample: a parsed lock file missing `expires_at` is classified
as expired (via the `'1970-01-01'` default of `lock_info.get`), not as
corrupt; and a parsed, unexpired lock file missing `pid` skips the liveness
check entirely and is classified as valid — `cleanup_expired_locks` keeps it
and `is_room_locked` answers `true`. -/
theorem missing_field_not_classified_corrupt :
    classifyFile (.parsed ⟨none, some 7⟩) 1 (fun _ => true) = .removeExpired ∧
    classifyFile (.parsed ⟨none, some 7⟩) 1 (fun _ => true) ≠ .removeCorrupt ∧
    classifyFile (.parsed ⟨some (.valid 100), none⟩) 50 (fun _ => true) = .keep ∧
    (is_room_locked (some (.parsed ⟨some (.valid 100), none⟩)) 50
      (fun _ => true)).1 = true := by
  decide

/-- C5 amended: the readers never report a missing required field as corrupt.
A record without `expires_at` is treated as expired at the epoch default (so
any positive `now` classifies it `removeExpired`), and an unexpired record
without `pid` is kept as valid by both the sweep and `is_room_locked`; only
empty, unparseable, or ill-typed-timestamp contents count as corrupt. -/
theorem missing_field_defaulted_classification (i1 i2 : LockInfo)
    (now1 now2 e : Nat) (a1 a2 : Int → Bool)
    (h1 : i1.expiresF = none) (h2 : 0 < now1)
    (h3 : i2.expiresF = some (.valid e)) (h4 : i2.pidF = none)
    (h5 : now2 ≤ e) :
    classifyFile (.parsed i1) now1 a1 = .removeExpired ∧
    classifyFile (.parsed i2) now2 a2 = .keep ∧
    (is_room_locked (some (.parsed i2)) now2 a2).1 = true := by
  have hne : ¬ e < now2 := by omega
  refine ⟨?_, ?_, ?_⟩
  · simp [classifyFile, expiresVal, h1, h2]
  · simp [classifyFile, expiresVal, h3, hne, pidTruthy, h4]
  · simp [is_room_locked, expiresVal, h3, hne, pidTruthy, h4]

/-- C5 amended, witness. -/
theorem missing_field_defaulted_classification_witness :
    (⟨none, some 7⟩ : LockInfo).expiresF = none ∧ 0 < 1 ∧
    (⟨some (.valid 100), none⟩ : LockInfo).expiresF = some (.valid 100) ∧
    (⟨some (.valid 100), none⟩ : LockInfo).pidF = none ∧ 50 ≤ 100 ∧
    (classifyFile (.parsed ⟨none, some 7⟩) 1 (fun _ => false) = .removeExpired ∧
     classifyFile (.parsed ⟨some (.valid 100), none⟩) 50 (fun _ => false) = .keep ∧
     (is_room_locked (some (.parsed ⟨some (.valid 100), none⟩)) 50
       (fun _ => false)).1 = true) :=
  ⟨rfl, by decide, rfl, rfl, by decide,
   missing_field_defaulted_classification ⟨none, some 7⟩
     ⟨some (.valid 100), none⟩ 1 50 100 (fun _ => false) (fun _ => false)
     rfl (by decide) rfl rfl (by decide)⟩

/-! ## Expiry boundary (C7) -/

/-- C7 counterexample: a record observed at the exact instant
`now = expires_at` is *not* treated as expired — the source compares with
strict `datetime.now() > expires_at`, so at the boundary `is_room_locked`
answers `true` and the sweep keeps the file (owner pid 55 alive). -/
theorem boundary_instant_not_expired :
    (is_room_locked (some (.parsed ⟨some (.valid 100), some 55⟩)) 100
      (fun _ => true)).1 = true ∧
    classifyFile (.parsed ⟨some (.valid 100), some 55⟩) 100
      (fun _ => true) = .keep := by
  decide

/-- C7 amended: for a record whose `expires_at` parses to `e`, both readers
classify it as expired exactly when `now > e` (strictly); at the boundary
instant `now = e` the record is not expired.  When `now > e`,
`is_room_locked` answers `false` and deletes the file. -/
theorem expiry_classification_strict (info : LockInfo) (e now : Nat)
    (alive : Int → Bool) (h : expiresVal info = .valid e) :
    (classifyFile (.parsed info) now alive = .removeExpired ↔ e < now) ∧
    (e < now → is_room_locked (some (.parsed info)) now alive = (false, none)) := by
  constructor
  · constructor
    · intro hc
      by_contra hlt
      simp only [classifyFile, h, if_neg hlt] at hc
      split at hc <;> simp_all
    · intro hlt
      simp [classifyFile, h, hlt]
  · intro hlt
    simp [is_room_locked, h, hlt]

/-- C7 amended, witness. -/
theorem expiry_classification_strict_witness :
    expiresVal ⟨some (.valid 10), some 1⟩ = .valid 10 ∧
    ((classifyFile (.parsed ⟨some (.valid 10), some 1⟩) 11 (fun _ => true)
        = .removeExpired ↔ 10 < 11) ∧
     (10 < 11 → is_room_locked (some (.parsed ⟨some (.valid 10), some 1⟩)) 11
        (fun _ => true) = (false, none))) :=
  ⟨rfl, expiry_classification_strict ⟨some (.valid 10), some 1⟩ 10 11
    (fun _ => true) rfl⟩

/-! ## Codec round trip (C8) -/

/-- C8: decoding the encoding of any session record returns the record:
every field the `session_info` dict serialization writes is recovered by the
(spec-modelled) decoder. -/
theorem decode_encode_roundtrip (r : SessionInfo) : decode (encode r) = some r := by
  rfl

/-! ## Sweep characterization (C9) -/

/-- A syntactically valid, unexpired record with no `pid` field: per the
specification's classifier this is a decode failure (`MissingField`), hence
not `Valid`; the source sweep keeps it. -/
def noPidFile : LockFileData := .parsed ⟨some (.valid 100), none⟩

/-- C9 counterexample: the sweep does not delete every file that is not
classified `Valid`.  A record missing its required `owner_pid` field is not
`Valid` under the specification's classification (decode fails with
`MissingField`, treated as `Corrupt`), yet `cleanup_expired_locks` keeps the
file on disk and counts nothing. -/
theorem sweep_keeps_non_valid_file :
    classify_spec noPidFile 50 (fun _ => true) ≠ .statusValid ∧
    cleanup_expired_locks [("room_a.lock", noPidFile)] 50 (fun _ => true)
      = ([("room_a.lock", noPidFile)], 0, 0) := by
  decide

/-- C9 amended: the sweep deletes exactly the files its own per-file
classification marks for removal, keeping the rest in order, and the two
counters it computes (for its log line — the Python function itself returns
`None`) count the removed files as claimed: `cleaned_count` the expired and
orphaned ones, `corrupted_count` the empty and malformed ones. -/
theorem cleanup_filter_and_counts (files : List (String × LockFileData))
    (now : Nat) (alive : Int → Bool) :
    (cleanup_expired_locks files now alive).1
      = files.filter (fun fd => classifyFile fd.2 now alive = .keep) ∧
    (cleanup_expired_locks files now alive).2.1
      = files.countP (fun fd => classifyFile fd.2 now alive = .removeExpired
          || classifyFile fd.2 now alive = .removeOrphan) ∧
    (cleanup_expired_locks files now alive).2.2
      = files.countP (fun fd => classifyFile fd.2 now alive = .removeCorrupt) := by
  induction files with
  | nil => simp [cleanup_expired_locks]
  | cons fd rest ih =>
    obtain ⟨ih1, ih2, ih3⟩ := ih
    cases hc : classifyFile fd.2 now alive <;>
      simp [cleanup_expired_locks, hc, ih1, ih2, ih3, List.filter_cons,
        List.countP_cons]

/-! ## Re-entrancy (C6) and non-positive timeout (C10) -/

theorem acquire_from_init_eq (room jobId user : String) (p : Nat) (t : Int)
    (now m : Nat) (hm : (10 * t).toNat = m + 1) :
    acquire_room_lock p room jobId user t now L0 s0 =
      ⟨true, 1,
       ⟨[(sessionKey user room, ⟨room, jobId, user, p, now, now + 3600⟩)],
        [(sessionKey user room, 0)]⟩,
       ⟨1, some 0, [(0, p)],
        [(0, .record ⟨room, jobId, user, p, now, now + 3600⟩)]⟩⟩ := by
  have h0 : acquire_room_lock p room jobId user t now L0 s0
      = pollLoop p 0 (sessionKey user room)
          ⟨room, jobId, user, p, now, now + 3600⟩ ((10 * t).toNat) L0
          ⟨1, some 0, [], [(0, .empty)]⟩ := rfl
  rw [h0, hm]
  rfl

theorem acquire_reacquire_eq (room jobId user : String) (p : Nat) (t : Int)
    (now now2 m : Nat) (hm : (10 * t).toNat = m + 1) :
    acquire_room_lock p room jobId user t now2
      ⟨[(sessionKey user room, ⟨room, jobId, user, p, now, now + 3600⟩)],
       [(sessionKey user room, 0)]⟩
      ⟨1, some 0, [(0, p)],
       [(0, .record ⟨room, jobId, user, p, now, now + 3600⟩)]⟩ =
      ⟨true, 1,
       ⟨[(sessionKey user room, ⟨room, jobId, user, p, now2, now2 + 3600⟩)],
        [(sessionKey user room, 1)]⟩,
       ⟨2, some 1, [(1, p)],
        [(0, .record ⟨room, jobId, user, p, now, now + 3600⟩),
         (1, .record ⟨room, jobId, user, p, now2, now2 + 3600⟩)]⟩⟩ := by
  simp [acquire_room_lock, release_room_lock, fsOpenW, fsClose, flockUn,
    fsUnlink, pollLoop, flockTry, lookupA, lookupN, setA, setN, eraseA,
    eraseNV, hm]

/-- C6: re-entrancy self-healing works as claimed.  For any resource, user,
job, process id, positive timeout, and call times: a first `acquire` from a
fresh state succeeds, and a second `acquire` for the same `(resource, user)`
pair from the same process, with no intervening `release`, also returns
`true` — the first lock (on inode 0) has been implicitly released (the
advisory-lock table no longer holds it) and the process now holds the lock
on the freshly created inode 1. -/
theorem reacquire_same_pair_succeeds (room jobId user : String) (p : Nat)
    (t : Int) (now1 now2 : Nat) (ht : 0 < t) :
    (acquire_room_lock p room jobId user t now1 L0 s0).ok = true ∧
    (acquire_room_lock p room jobId user t now2
      (acquire_room_lock p room jobId user t now1 L0 s0).L
      (acquire_room_lock p room jobId user t now1 L0 s0).s).ok = true ∧
    lookupN 0 (acquire_room_lock p room jobId user t now2
      (acquire_room_lock p room jobId user t now1 L0 s0).L
      (acquire_room_lock p room jobId user t now1 L0 s0).s).s.locked = none ∧
    lookupN 1 (acquire_room_lock p room jobId user t now2
      (acquire_room_lock p room jobId user t now1 L0 s0).L
      (acquire_room_lock p room jobId user t now1 L0 s0).s).s.locked = some p := by
  obtain ⟨m, hm⟩ : ∃ m, (10 * t).toNat = m + 1 := ⟨(10 * t).toNat - 1, by omega⟩
  rw [acquire_from_init_eq room jobId user p t now1 m hm]
  dsimp only
  rw [acquire_reacquire_eq room jobId user p t now1 now2 m hm]
  simp [lookupN]

/-- C6 witness: the re-entrancy theorem at a concrete pair, process and
timeout. -/
theorem reacquire_same_pair_succeeds_witness :
    (0 : Int) < 1 ∧
    ((acquire_room_lock 4 "room-1" "jobA" "userA" 1 0 L0 s0).ok = true ∧
     (acquire_room_lock 4 "room-1" "jobA" "userA" 1 7
       (acquire_room_lock 4 "room-1" "jobA" "userA" 1 0 L0 s0).L
       (acquire_room_lock 4 "room-1" "jobA" "userA" 1 0 L0 s0).s).ok = true ∧
     lookupN 0 (acquire_room_lock 4 "room-1" "jobA" "userA" 1 7
       (acquire_room_lock 4 "room-1" "jobA" "userA" 1 0 L0 s0).L
       (acquire_room_lock 4 "room-1" "jobA" "userA" 1 0 L0 s0).s).s.locked
       = none ∧
     lookupN 1 (acquire_room_lock 4 "room-1" "jobA" "userA" 1 7
       (acquire_room_lock 4 "room-1" "jobA" "userA" 1 0 L0 s0).L
       (acquire_room_lock 4 "room-1" "jobA" "userA" 1 0 L0 s0).s).s.locked
       = some 4) :=
  ⟨by decide,
   reacquire_same_pair_succeeds "room-1" "jobA" "userA" 4 1 0 7 (by decide)⟩

/-- C10: an `acquire` call whose `timeout` is not positive never enters the
polling loop: the wall-clock budget `while time.time() - start_time <
timeout` admits zero iterations, so no exclusive advisory-lock attempt is
made and the call returns `false` (after the timeout path's bookkeeping). -/
theorem acquire_nonpositive_timeout_no_attempt (p : Nat)
    (room jobId user : String) (t : Int) (now : Nat) (L : LocalMgr) (s : Sys)
    (ht : t ≤ 0) :
    (acquire_room_lock p room jobId user t now L s).ok = false ∧
    (acquire_room_lock p room jobId user t now L s).exAttempts = 0 := by
  have hf : (10 * t).toNat = 0 := by omega
  simp only [acquire_room_lock, hf]
  exact pollLoop_zero_spec _ _ _ _ _ _ (fsOpenW_pathInode _) (fsOpenW_content _)

/-- C10 witness: the non-positive-timeout theorem at timeout `0` from the
initial state. -/
theorem acquire_nonpositive_timeout_no_attempt_witness :
    (0 : Int) ≤ 0 ∧
    ((acquire_room_lock 7 "room-9" "jobZ" "userZ" 0 42 L0 s0).ok = false ∧
     (acquire_room_lock 7 "room-9" "jobZ" "userZ" 0 42 L0 s0).exAttempts = 0) :=
  ⟨le_refl 0,
   acquire_nonpositive_timeout_no_attempt 7 "room-9" "jobZ" "userZ" 0 42 L0 s0
     (le_refl 0)⟩

end RoomLock
